import Mathlib

deriving instance DecidableEq for Except

/-!
Shallow embedding of `src/server/traffic-sender.py`.

Conventions of the embedding:
* Python byte strings are `List Nat` with every element `< 256`.
* Python machine arithmetic (`x >> 16`, `x & 0xffff`, `x << 5`) is written
  with explicit `/ 65536`, `% 65536`, `* 32` on `Nat`, which is exactly what
  those operations compute on non-negative Python ints.
* Python exceptions are modelled with `Except String`: `struct.pack` range
  failures raise `"struct.error"`, `bytes.fromhex` failures raise
  `"ValueError"`, division by zero raises `"ZeroDivisionError"`.
* `socket.inet_aton` is an external library call; its 4-byte result is passed
  in as a `List Nat` parameter (`send_traffic` passes the bytes of the dummy
  addresses `192.168.100.1` / `192.168.100.2` that the script hard-codes).
* The send loop's interaction with the clock and the raw socket is modelled
  by a list of per-iteration `SendEvent`s: the loop runs one iteration per
  event (the `elapsed >= duration` break is reaching the end of the list),
  and each event says what `sock.send` did at that iteration.  The send
  interval `1.0 / pps` is modelled exactly as the rational `1 / pps`.
-/

/-- Value of one hexadecimal digit, as used by `bytes.fromhex`. -/
def hexVal (c : Char) : Option Nat :=
  if '0' ≤ c ∧ c ≤ '9' then some (c.toNat - 48)
  else if 'a' ≤ c ∧ c ≤ 'f' then some (c.toNat - 87)
  else if 'A' ≤ c ∧ c ≤ 'F' then some (c.toNat - 55)
  else none

/-- Model of `bytes.fromhex`: pairs of hex digits become bytes; a space may separate
byte pairs; any other character, or a dangling digit, raises `ValueError`. -/
def fromhex : List Char → Except String (List Nat)
  | [] => .ok []
  | ' ' :: rest => fromhex rest
  | c1 :: c2 :: rest =>
    match hexVal c1, hexVal c2, fromhex rest with
    | some hi, some lo, .ok tail => .ok ((16 * hi + lo) :: tail)
    | _, _, _ => .error "ValueError"
  | [_] => .error "ValueError"

/-- Lines 24-25, `bytes.fromhex(mac.replace(':', '').replace('-', ''))`:
drop every colon and hyphen, then hex-decode what is left. -/
def macBytes (s : String) : Except String (List Nat) :=
  fromhex (s.toList.filter (fun c => !(c == ':') && !(c == '-')))

/-- Model of `struct.pack('>B', v)`: one byte, raising `struct.error` out of range. -/
def packB (v : Nat) : Except String (List Nat) :=
  if v < 256 then .ok [v] else .error "struct.error"

/-- Model of `struct.pack('>H', v)`: two big-endian bytes, raising `struct.error`
out of range. -/
def packH (v : Nat) : Except String (List Nat) :=
  if v < 65536 then .ok [v / 256, v % 256] else .error "struct.error"

/-- Model of `struct.unpack('!%dH' % (len(data)//2), data)` after padding an
odd-length buffer with one zero byte (lines 14-16): the big-endian 16-bit
words of a byte string. -/
def words16 : List Nat → List Nat
  | [] => []
  | [b] => [256 * b]
  | b1 :: b2 :: rest => (256 * b1 + b2) :: words16 rest

/-- Lines 17-19 of `calculate_checksum`:
`s = (s >> 16) + (s & 0xffff); s += s >> 16; return ~s & 0xffff`.
On a non-negative Python int, `~s & 0xffff` is `65535 - s % 65536`. -/
def checksum_fold (s : Nat) : Nat :=
  let s1 := s / 65536 + s % 65536
  let s2 := s1 + s1 / 65536
  65535 - s2 % 65536

/-- Model of `calculate_checksum` (lines 12-19): Internet checksum of a byte string. -/
def calculate_checksum (data : List Nat) : Nat :=
  checksum_fold (words16 data).sum

/-- Lines 56-59 and 63-66, `struct.pack('>BBHHHBBH', ...) + src_ip_bytes + dst_ip_bytes`: the 20-byte IPv4 header. -/
def packIpHeader (vihl dscp totalLen ipid flagsFrag ttl proto cksum : Nat)
    (srcB dstB : List Nat) : Except String (List Nat) := do
  let a ← packB vihl
  let b ← packB dscp
  let c ← packH totalLen
  let d ← packH ipid
  let e ← packH flagsFrag
  let f ← packB ttl
  let g ← packB proto
  let hc ← packH cksum
  pure (a ++ b ++ c ++ d ++ e ++ f ++ g ++ hc ++ srcB ++ dstB)

/-- Lines 72-73: pad the frame with zero bytes up to the 60-byte minimum. -/
def padTo60 (frame : List Nat) : List Nat :=
  if frame.length < 60 then frame ++ List.replicate (60 - frame.length) 0 else frame

/-- Model of `build_udp_frame` (lines 21-75).  `(pcp & 0x7) << 13 | (vlan_id & 0xFFF)`
is written `pcp % 8 * 8192 + vlan_id % 4096` (the two masked fields occupy
disjoint bit ranges, so the bitwise-or is addition); `(4 << 4) | 5` is
`4 * 16 + 5`; the DSCP byte `pcp << 5` is `pcp * 32` and is NOT masked in
the source.  `src_ip_bytes`/`dst_ip_bytes` are the `socket.inet_aton`
results. -/
def build_udp_frame (dst_mac src_mac : String) (vlan_id pcp : Nat)
    (src_ip_bytes dst_ip_bytes : List Nat) (src_port dst_port : Nat)
    (payload_size : Nat) : Except String (List Nat) := do
  let dst ← macBytes dst_mac
  let src ← macBytes src_mac
  let tpid ← packH 0x8100
  let tci ← packH (pcp % 8 * 8192 + vlan_id % 4096)
  let ethertype ← packH 0x0800
  let payload := (List.range payload_size).map (fun i => i % 256)
  let udp_length := 8 + payload.length
  let sp ← packH src_port
  let dp ← packH dst_port
  let ul ← packH udp_length
  let uc ← packH 0
  let udp_header := sp ++ dp ++ ul ++ uc
  let ip_total_length := 20 + udp_length
  let ip_header0 ← packIpHeader (4 * 16 + 5) (pcp * 32) ip_total_length 0 0 64 17 0
    src_ip_bytes dst_ip_bytes
  let ip_checksum := calculate_checksum ip_header0
  let ip_header ← packIpHeader (4 * 16 + 5) (pcp * 32) ip_total_length 0 0 64 17 ip_checksum
    src_ip_bytes dst_ip_bytes
  let frame := dst ++ src ++ tpid ++ tci ++ ethertype ++ ip_header ++ udp_header ++ payload
  pure (padTo60 frame)

/-- What `sock.send` did at one iteration of the send loop (line 125):
success, `BlockingIOError`, another `OSError`, or a `KeyboardInterrupt`
delivered at this iteration. -/
inductive SendEvent
  | ok
  | wouldBlock
  | fatal (msg : String)
  | interrupt
deriving DecidableEq

/-- Mutable state of the send loop (lines 102-109): the per-class counter
dict, `total`, `tc_idx`, and `next_send_time` as an offset-free rational
timestamp. -/
structure LoopState where
  stats : List (Nat × Nat)
  total : Nat
  tcIdx : Nat
  nextSendTime : ℚ
deriving DecidableEq

/-- How the loop ended: normal break / `KeyboardInterrupt` (both reach the
success JSON print) with the final state, or an uncaught exception. -/
inductive LoopResult
  | done (st : LoopState)
  | crashed (msg : String)
deriving DecidableEq

/-- Counter update `stats[tc] += 1` (line 126) on the association-list model of the dict. -/
def bump (stats : List (Nat × Nat)) (tc : Nat) : List (Nat × Nat) :=
  stats.map (fun p => if p.1 = tc then (p.1, p.2 + 1) else p)

/-- Dict comprehension `{tc: 0 for tc in tc_list}` (line 102): keys in first-occurrence order,
each mapped to 0. -/
def dictInit (tc_list : List Nat) : List (Nat × Nat) :=
  tc_list.foldl (fun d tc => if d.any (fun p => p.1 == tc) then d else d ++ [(tc, 0)]) []

/-- Dict assignment `frames[tc] = ...` on the association-list model. -/
def dictSet {α : Type} (d : List (Nat × α)) (k : Nat) (v : α) : List (Nat × α) :=
  if d.any (fun p => p.1 == k) then d.map (fun p => if p.1 == k then (k, v) else p)
  else d ++ [(k, v)]

/-- The `while True` loop of `send_traffic` (lines 112-132), one iteration
per `SendEvent`.  `tc_list[tc_idx % num_tcs]` with `num_tcs = 0` raises
`ZeroDivisionError`; on `.ok` the counters advance and
`next_send_time = start_time + (total + 1) * interval` is recomputed from
the updated total (lines 126-132); on `BlockingIOError` the counters are
untouched but `tc_idx` and `next_send_time` still advance (lines 128-132);
any other send error propagates (crash, no JSON); `KeyboardInterrupt` is
caught and falls through to the success print. -/
def runLoop (tcList : List Nat) (start interval : ℚ) :
    LoopState → List SendEvent → LoopResult
  | st, [] => .done st
  | st, ev :: rest =>
    if h : tcList.length = 0 then .crashed "ZeroDivisionError"
    else
      let tc := tcList.get ⟨st.tcIdx % tcList.length, Nat.mod_lt _ (Nat.pos_of_ne_zero h)⟩
      match ev with
      | .ok =>
        let total' := st.total + 1
        runLoop tcList start interval
          ⟨bump st.stats tc, total', st.tcIdx + 1, start + ((total' : ℚ) + 1) * interval⟩ rest
      | .wouldBlock =>
        runLoop tcList start interval
          ⟨st.stats, st.total, st.tcIdx + 1, start + ((st.total : ℚ) + 1) * interval⟩ rest
      | .fatal msg => .crashed msg
      | .interrupt => .done st

/-- Loop state at entry (lines 102-109): zeroed counters, `tc_idx = 0`,
`next_send_time = start_time`. -/
def initState (tc_list : List Nat) (start : ℚ) : LoopState :=
  ⟨dictInit tc_list, 0, 0, start⟩

/-- The frame pre-build loop (lines 93-100): one `build_udp_frame` per
traffic class, dummy IPs `192.168.100.1`/`192.168.100.2`, ports
`10000 + tc` / `20000 + tc`; the first exception propagates. -/
def buildFrames (dst_mac src_mac : String) (vlan_id : Nat) (tc_list : List Nat)
    (payload_size : Nat) : Except String (List (Nat × List Nat)) :=
  tc_list.foldlM (fun d tc => do
    let f ← build_udp_frame dst_mac src_mac vlan_id tc
      [192, 168, 100, 1] [192, 168, 100, 2] (10000 + tc) (20000 + tc) payload_size
    pure (dictSet d tc f)) []

/-- Observable outcome of one `send_traffic` run: the `{"error": ...}` JSON
(line 89), the success JSON with its counters and total (lines 142-149), or
an uncaught exception (no JSON at all). -/
inductive RunOutcome
  | errorResult (msg : String)
  | successResult (sent : List (Nat × Nat)) (total : Nat)
  | crash (msg : String)
deriving DecidableEq

/-- Model of `send_traffic` (lines 82-149).  `sockResult` is the outcome of the
socket-acquisition `try` block (lines 84-90); `interval = 1.0 / pps`
raises `ZeroDivisionError` when `pps = 0` (line 105), after the frames are
pre-built (lines 93-100) and before the loop. -/
def send_traffic (sockResult : Except String Unit) (dst_mac src_mac : String)
    (vlan_id : Nat) (tc_list : List Nat) (pps : Nat) (events : List SendEvent)
    (payload_size : Nat) : RunOutcome :=
  match sockResult with
  | .error e => .errorResult e
  | .ok _ =>
    match buildFrames dst_mac src_mac vlan_id tc_list payload_size with
    | .error e => .crash e
    | .ok _ =>
      if pps = 0 then .crash "ZeroDivisionError"
      else
        match runLoop tc_list 0 (1 / (pps : ℚ)) (initState tc_list 0) events with
        | .done st => .successResult st.stats st.total
        | .crashed msg => .crash msg

/-! ### Helper lemmas -/

theorem exc_ok_bind {α β : Type} (a : α) (f : α → Except String β) :
    (Except.ok a >>= f) = f a := rfl

theorem exc_error_bind {α β : Type} (e : String) (f : α → Except String β) :
    ((Except.error e : Except String α) >>= f) = .error e := rfl

theorem checksum_fold_mult (k : Nat) (h1 : 1 ≤ k) (h2 : k ≤ 10) :
    checksum_fold (65535 * k) = 0 := by
  interval_cases k <;> decide

theorem add_fold_mult (s : Nat) (h : s ≤ 589815) :
    ∃ k, 1 ≤ k ∧ k ≤ 10 ∧ s + checksum_fold s = 65535 * k := by
  dsimp only [checksum_fold]
  refine ⟨s / 65536 + (s / 65536 + s % 65536) / 65536 + 1, by omega, by omega, by omega⟩

theorem checksum_fold_verify (s : Nat) (h : s ≤ 589815) :
    checksum_fold (s + checksum_fold s) = 0 := by
  obtain ⟨k, hk1, hk2, hk⟩ := add_fold_mult s h
  rw [hk]
  exact checksum_fold_mult k hk1 hk2

theorem checksum_fold_lt (s : Nat) : checksum_fold s < 65536 := by
  dsimp only [checksum_fold]
  omega

theorem calculate_checksum_lt (l : List Nat) : calculate_checksum l < 65536 :=
  checksum_fold_lt _

theorem packIpHeader_ok (dscp totalLen cksum : Nat) (srcB dstB : List Nat)
    (h1 : dscp < 256) (h2 : totalLen < 65536) (h3 : cksum < 65536) :
    packIpHeader (4 * 16 + 5) dscp totalLen 0 0 64 17 cksum srcB dstB =
      .ok ([69, dscp, totalLen / 256, totalLen % 256, 0, 0, 0, 0, 64, 17,
        cksum / 256, cksum % 256] ++ srcB ++ dstB) := by
  unfold packIpHeader packB packH
  rw [if_pos h1, if_pos h2, if_pos h3]
  rfl

theorem build_udp_frame_ok (dst_mac src_mac : String) (vlan_id pcp : Nat)
    (srcB dstB : List Nat) (src_port dst_port payload_size : Nat) (d s : List Nat)
    (hd : macBytes dst_mac = .ok d) (hs : macBytes src_mac = .ok s)
    (hpcp : pcp ≤ 7) (hsp : src_port < 65536) (hdp : dst_port < 65536)
    (hps : payload_size ≤ 65507) :
    build_udp_frame dst_mac src_mac vlan_id pcp srcB dstB src_port dst_port payload_size =
      .ok (padTo60 (d ++ s ++ [129, 0] ++
        [(pcp % 8 * 8192 + vlan_id % 4096) / 256, (pcp % 8 * 8192 + vlan_id % 4096) % 256] ++
        [8, 0] ++
        ([69, pcp * 32, (28 + payload_size) / 256, (28 + payload_size) % 256, 0, 0, 0, 0, 64, 17,
          calculate_checksum ([69, pcp * 32, (28 + payload_size) / 256, (28 + payload_size) % 256,
            0, 0, 0, 0, 64, 17, 0, 0] ++ srcB ++ dstB) / 256,
          calculate_checksum ([69, pcp * 32, (28 + payload_size) / 256, (28 + payload_size) % 256,
            0, 0, 0, 0, 64, 17, 0, 0] ++ srcB ++ dstB) % 256] ++ srcB ++ dstB) ++
        [src_port / 256, src_port % 256, dst_port / 256, dst_port % 256,
          (8 + payload_size) / 256, (8 + payload_size) % 256, 0, 0] ++
        (List.range payload_size).map (fun i => i % 256))) := by
  have htci : packH (pcp % 8 * 8192 + vlan_id % 4096) =
      .ok [(pcp % 8 * 8192 + vlan_id % 4096) / 256, (pcp % 8 * 8192 + vlan_id % 4096) % 256] := by
    unfold packH
    rw [if_pos (by omega)]
  have hsp' : packH src_port = .ok [src_port / 256, src_port % 256] := by
    unfold packH
    rw [if_pos hsp]
  have hdp' : packH dst_port = .ok [dst_port / 256, dst_port % 256] := by
    unfold packH
    rw [if_pos hdp]
  have hul : packH (8 + payload_size) =
      .ok [(8 + payload_size) / 256, (8 + payload_size) % 256] := by
    unfold packH
    rw [if_pos (by omega)]
  have harith : 20 + (8 + payload_size) = 28 + payload_size := by omega
  have hip0 := packIpHeader_ok (pcp * 32) (28 + payload_size) 0 srcB dstB
    (by omega) (by omega) (by omega)
  have hip1 := packIpHeader_ok (pcp * 32) (28 + payload_size)
    (calculate_checksum ([69, pcp * 32, (28 + payload_size) / 256, (28 + payload_size) % 256,
      0, 0, 0, 0, 64, 17, 0, 0] ++ srcB ++ dstB)) srcB dstB
    (by omega) (by omega) (calculate_checksum_lt _)
  simp only [build_udp_frame, hd, hs, exc_ok_bind, List.length_map, List.length_range,
    harith, htci, hsp', hdp', hul, hip0, hip1]
  rfl

theorem verify_of_sum (S0 c X : Nat) (hc : c = checksum_fold S0) (hX : X = S0 + c)
    (hS0 : S0 ≤ 589815) : checksum_fold X = 0 := by
  subst hc
  subst hX
  exact checksum_fold_verify S0 hS0

theorem list_len4 {α : Type} (l : List α) (h : l.length = 4) :
    ∃ a b c d, l = [a, b, c, d] := by
  match l, h with
  | [a, b, c, d], _ => exact ⟨a, b, c, d, rfl⟩

theorem list_len6 {α : Type} (l : List α) (h : l.length = 6) :
    ∃ a b c d e f, l = [a, b, c, d, e, f] := by
  match l, h with
  | [a, b, c, d, e, f], _ => exact ⟨a, b, c, d, e, f, rfl⟩

theorem ip_checksum_verify_words (dscp tl a b c d2 e g h2 i2 : Nat)
    (hdscp : dscp < 256) (htl : tl < 65536)
    (ha : a < 256) (hb : b < 256) (hc : c < 256) (hd2 : d2 < 256)
    (he : e < 256) (hg : g < 256) (hh2 : h2 < 256) (hi2 : i2 < 256) :
    calculate_checksum [69, dscp, tl / 256, tl % 256, 0, 0, 0, 0, 64, 17,
      calculate_checksum [69, dscp, tl / 256, tl % 256, 0, 0, 0, 0, 64, 17, 0, 0,
        a, b, c, d2, e, g, h2, i2] / 256,
      calculate_checksum [69, dscp, tl / 256, tl % 256, 0, 0, 0, 0, 64, 17, 0, 0,
        a, b, c, d2, e, g, h2, i2] % 256,
      a, b, c, d2, e, g, h2, i2] = 0 := by
  refine verify_of_sum
    ((words16 [69, dscp, tl / 256, tl % 256, 0, 0, 0, 0, 64, 17, 0, 0,
      a, b, c, d2, e, g, h2, i2]).sum)
    (calculate_checksum [69, dscp, tl / 256, tl % 256, 0, 0, 0, 0, 64, 17, 0, 0,
      a, b, c, d2, e, g, h2, i2]) _ rfl ?_ ?_
  · simp only [calculate_checksum, words16, List.sum_cons, List.sum_nil]
    omega
  · simp only [words16, List.sum_cons, List.sum_nil]
    omega

/-- C1: for every built frame, recomputing the Internet checksum over the
20-byte IPv4 header embedded at bytes 18..37 of the frame, including the
filled-in checksum field, yields 0. -/
theorem built_frame_ip_checksum_zero (dst_mac src_mac : String) (vlan_id pcp : Nat)
    (srcB dstB : List Nat) (src_port dst_port payload_size : Nat) (d s f : List Nat)
    (hd : macBytes dst_mac = .ok d) (hdl : d.length = 6)
    (hs : macBytes src_mac = .ok s) (hsl : s.length = 6)
    (hsrcl : srcB.length = 4) (hsrcb : ∀ x ∈ srcB, x < 256)
    (hdstl : dstB.length = 4) (hdstb : ∀ x ∈ dstB, x < 256)
    (hvlan : vlan_id ≤ 4095) (hpcp : pcp ≤ 7)
    (hsp : src_port < 65536) (hdp : dst_port < 65536) (hps : payload_size ≤ 65507)
    (hbuild : build_udp_frame dst_mac src_mac vlan_id pcp srcB dstB src_port dst_port
      payload_size = .ok f) :
    calculate_checksum ((f.drop 18).take 20) = 0 := by
  rw [build_udp_frame_ok dst_mac src_mac vlan_id pcp srcB dstB src_port dst_port
    payload_size d s hd hs hpcp hsp hdp hps] at hbuild
  injection hbuild with hf
  subst hf
  obtain ⟨m0, m1, m2, m3, m4, m5, rfl⟩ := list_len6 d hdl
  obtain ⟨n0, n1, n2, n3, n4, n5, rfl⟩ := list_len6 s hsl
  obtain ⟨x0, x1, x2, x3, rfl⟩ := list_len4 srcB hsrcl
  obtain ⟨y0, y1, y2, y3, rfl⟩ := list_len4 dstB hdstl
  have hx0 : x0 < 256 := hsrcb x0 (by simp)
  have hx1 : x1 < 256 := hsrcb x1 (by simp)
  have hx2 : x2 < 256 := hsrcb x2 (by simp)
  have hx3 : x3 < 256 := hsrcb x3 (by simp)
  have hy0 : y0 < 256 := hdstb y0 (by simp)
  have hy1 : y1 < 256 := hdstb y1 (by simp)
  have hy2 : y2 < 256 := hdstb y2 (by simp)
  have hy3 : y3 < 256 := hdstb y3 (by simp)
  unfold padTo60
  split <;>
    simpa using ip_checksum_verify_words (pcp * 32) (28 + payload_size)
      x0 x1 x2 x3 y0 y1 y2 y3 (by omega) (by omega) hx0 hx1 hx2 hx3 hy0 hy1 hy2 hy3

/-- C2: for pcp in [0,7] and vlanId in [0,4095], the TCI field of the built
frame (bytes 14-15, big-endian) is exactly pcp * 2^13 + vlanId, so the top
3 bits recover pcp, the low 12 bits recover vlanId, and the DEI bit
(bit 12) is 0. -/
theorem built_frame_tci (dst_mac src_mac : String) (vlan_id pcp : Nat)
    (srcB dstB : List Nat) (src_port dst_port payload_size : Nat) (d s f : List Nat)
    (hd : macBytes dst_mac = .ok d) (hdl : d.length = 6)
    (hs : macBytes src_mac = .ok s) (hsl : s.length = 6)
    (hvlan : vlan_id ≤ 4095) (hpcp : pcp ≤ 7)
    (hsp : src_port < 65536) (hdp : dst_port < 65536) (hps : payload_size ≤ 65507)
    (hbuild : build_udp_frame dst_mac src_mac vlan_id pcp srcB dstB src_port dst_port
      payload_size = .ok f) :
    (f.drop 14).take 2 =
      [(pcp * 8192 + vlan_id) / 256, (pcp * 8192 + vlan_id) % 256] ∧
    (pcp * 8192 + vlan_id) / 8192 = pcp ∧
    (pcp * 8192 + vlan_id) % 4096 = vlan_id ∧
    (pcp * 8192 + vlan_id) / 4096 % 2 = 0 := by
  rw [build_udp_frame_ok dst_mac src_mac vlan_id pcp srcB dstB src_port dst_port
    payload_size d s hd hs hpcp hsp hdp hps] at hbuild
  injection hbuild with hf
  subst hf
  obtain ⟨m0, m1, m2, m3, m4, m5, rfl⟩ := list_len6 d hdl
  obtain ⟨n0, n1, n2, n3, n4, n5, rfl⟩ := list_len6 s hsl
  have h8 : pcp % 8 = pcp := Nat.mod_eq_of_lt (by omega)
  have h4096 : vlan_id % 4096 = vlan_id := Nat.mod_eq_of_lt (by omega)
  refine ⟨?_, by omega, by omega, by omega⟩
  unfold padTo60
  split <;> simp [h8, h4096]

theorem exc_bind_ok {α β : Type} {x : Except String α} {g : α → Except String β} {b : β}
    (h : (x >>= g) = .ok b) : ∃ a, x = .ok a ∧ g a = .ok b := by
  cases x with
  | error e => exact absurd h (by simp [exc_error_bind])
  | ok a => exact ⟨a, rfl, h⟩

theorem padTo60_length (l : List Nat) : 60 ≤ (padTo60 l).length := by
  unfold padTo60
  split
  · simp only [List.length_append, List.length_replicate]
    omega
  · omega

/-- C4: every frame that `build_udp_frame` returns is at least 60 bytes
long: the pad-to-minimum step guarantees this for every successful build. -/
theorem built_frame_min_length (dst_mac src_mac : String) (vlan_id pcp : Nat)
    (srcB dstB : List Nat) (src_port dst_port payload_size : Nat) (f : List Nat)
    (hbuild : build_udp_frame dst_mac src_mac vlan_id pcp srcB dstB src_port dst_port
      payload_size = .ok f) :
    60 ≤ f.length := by
  unfold build_udp_frame at hbuild
  obtain ⟨d, -, hbuild⟩ := exc_bind_ok hbuild
  obtain ⟨s, -, hbuild⟩ := exc_bind_ok hbuild
  obtain ⟨tpid, -, hbuild⟩ := exc_bind_ok hbuild
  obtain ⟨tci, -, hbuild⟩ := exc_bind_ok hbuild
  obtain ⟨ethertype, -, hbuild⟩ := exc_bind_ok hbuild
  obtain ⟨sp, -, hbuild⟩ := exc_bind_ok hbuild
  obtain ⟨dp, -, hbuild⟩ := exc_bind_ok hbuild
  obtain ⟨ul, -, hbuild⟩ := exc_bind_ok hbuild
  obtain ⟨uc, -, hbuild⟩ := exc_bind_ok hbuild
  obtain ⟨iph0, -, hbuild⟩ := exc_bind_ok hbuild
  obtain ⟨iph, -, hbuild⟩ := exc_bind_ok hbuild
  cases hbuild
  exact padTo60_length _

theorem packIpHeader_dscp_fail (dscp totalLen cksum : Nat) (srcB dstB : List Nat)
    (h : 256 ≤ dscp) :
    packIpHeader (4 * 16 + 5) dscp totalLen 0 0 64 17 cksum srcB dstB =
      .error "struct.error" := by
  unfold packIpHeader packB
  rw [if_neg (show ¬ dscp < 256 by omega)]
  rfl

/-- C5 amended: out-of-range vlanId is silently masked (building with any
vlanId gives the same frame as building with vlanId mod 4096), but pcp is
masked only in the TCI: the IP DSCP byte `pcp << 5` is packed unmasked, so
for pcp at least 8 the build raises struct.error instead of producing the
masked frame. -/
theorem build_mask_policy (dst_mac src_mac : String) (vlan_id pcp : Nat)
    (srcB dstB : List Nat) (src_port dst_port payload_size : Nat) (d s : List Nat)
    (hd : macBytes dst_mac = .ok d) (hs : macBytes src_mac = .ok s)
    (hsp : src_port < 65536) (hdp : dst_port < 65536) (hps : payload_size ≤ 65507) :
    build_udp_frame dst_mac src_mac vlan_id pcp srcB dstB src_port dst_port payload_size =
      build_udp_frame dst_mac src_mac (vlan_id % 4096) pcp srcB dstB src_port dst_port
        payload_size ∧
    (8 ≤ pcp → build_udp_frame dst_mac src_mac vlan_id pcp srcB dstB src_port dst_port
      payload_size = .error "struct.error") := by
  constructor
  · have hm : vlan_id % 4096 % 4096 = vlan_id % 4096 := by omega
    simp only [build_udp_frame, hm]
  · intro hpcp8
    have htci : packH (pcp % 8 * 8192 + vlan_id % 4096) =
        .ok [(pcp % 8 * 8192 + vlan_id % 4096) / 256,
          (pcp % 8 * 8192 + vlan_id % 4096) % 256] := by
      unfold packH
      rw [if_pos (by omega)]
    have hsp' : packH src_port = .ok [src_port / 256, src_port % 256] := by
      unfold packH
      rw [if_pos hsp]
    have hdp' : packH dst_port = .ok [dst_port / 256, dst_port % 256] := by
      unfold packH
      rw [if_pos hdp]
    have hul : packH (8 + payload_size) =
        .ok [(8 + payload_size) / 256, (8 + payload_size) % 256] := by
      unfold packH
      rw [if_pos (by omega)]
    have harith : 20 + (8 + payload_size) = 28 + payload_size := by omega
    have hfail := packIpHeader_dscp_fail (pcp * 32) (28 + payload_size) 0 srcB dstB (by omega)
    simp only [build_udp_frame, hd, hs, exc_ok_bind, List.length_map, List.length_range,
      harith, htci, hsp', hdp', hul, hfail, exc_error_bind]
    rfl

/-- C5 witness: a concrete out-of-range vlanId (5000) and pcp (9). -/
theorem build_mask_policy_witness :
    build_udp_frame "aa:bb:cc:dd:ee:ff" "11:22:33:44:55:66" 5000 9
      [192, 168, 100, 1] [192, 168, 100, 2] 10009 20009 10 =
      build_udp_frame "aa:bb:cc:dd:ee:ff" "11:22:33:44:55:66" (5000 % 4096) 9
        [192, 168, 100, 1] [192, 168, 100, 2] 10009 20009 10 ∧
    (8 ≤ 9 → build_udp_frame "aa:bb:cc:dd:ee:ff" "11:22:33:44:55:66" 5000 9
      [192, 168, 100, 1] [192, 168, 100, 2] 10009 20009 10 = .error "struct.error") :=
  build_mask_policy "aa:bb:cc:dd:ee:ff" "11:22:33:44:55:66" 5000 9
    [192, 168, 100, 1] [192, 168, 100, 2] 10009 20009 10
    [170, 187, 204, 221, 238, 255] [17, 34, 51, 68, 85, 102]
    (by decide) (by decide) (by omega) (by omega) (by omega)

/-- C5 counterexample: at pcp = 8 (whose masked value 8 mod 8 = 0) the build
does not succeed at all: the unmasked DSCP byte would be 256, so struct.pack
raises, while the build with the masked pcp succeeds; the one-consistent-
bitmasking claim is false. -/
theorem build_mask_claim_counterexample :
    build_udp_frame "aa:bb:cc:dd:ee:ff" "11:22:33:44:55:66" 100 8
      [192, 168, 100, 1] [192, 168, 100, 2] 10008 20008 10 = .error "struct.error" ∧
    build_udp_frame "aa:bb:cc:dd:ee:ff" "11:22:33:44:55:66" 100 (8 % 8)
      [192, 168, 100, 1] [192, 168, 100, 2] 10008 20008 10 ≠ .error "struct.error" := by
  constructor
  · decide
  · decide

/-- C1 witness: the concrete frame for MACs aa:bb:cc:dd:ee:ff /
11:22:33:44:55:66, vlan 100, pcp 5, payload 10. -/
theorem built_frame_ip_checksum_zero_witness :
    calculate_checksum ((([170, 187, 204, 221, 238, 255, 17, 34, 51, 68, 85, 102,
      129, 0, 160, 100, 8, 0, 69, 160, 0, 38, 0, 0, 0, 0, 64, 17, 48, 211,
      192, 168, 100, 1, 192, 168, 100, 2, 39, 21, 78, 37, 0, 18, 0, 0,
      0, 1, 2, 3, 4, 5, 6, 7, 8, 9, 0, 0, 0, 0] : List Nat).drop 18).take 20) = 0 :=
  built_frame_ip_checksum_zero "aa:bb:cc:dd:ee:ff" "11:22:33:44:55:66" 100 5
    [192, 168, 100, 1] [192, 168, 100, 2] 10005 20005 10
    [170, 187, 204, 221, 238, 255] [17, 34, 51, 68, 85, 102]
    [170, 187, 204, 221, 238, 255, 17, 34, 51, 68, 85, 102,
      129, 0, 160, 100, 8, 0, 69, 160, 0, 38, 0, 0, 0, 0, 64, 17, 48, 211,
      192, 168, 100, 1, 192, 168, 100, 2, 39, 21, 78, 37, 0, 18, 0, 0,
      0, 1, 2, 3, 4, 5, 6, 7, 8, 9, 0, 0, 0, 0]
    (by decide) (by decide) (by decide) (by decide) (by decide) (by decide)
    (by decide) (by decide) (by omega) (by omega) (by omega) (by omega) (by omega)
    (by decide)

/-- C2 witness: same concrete frame; its TCI bytes are 160, 100, i.e. 0xA064. -/
theorem built_frame_tci_witness :
    ((([170, 187, 204, 221, 238, 255, 17, 34, 51, 68, 85, 102,
      129, 0, 160, 100, 8, 0, 69, 160, 0, 38, 0, 0, 0, 0, 64, 17, 48, 211,
      192, 168, 100, 1, 192, 168, 100, 2, 39, 21, 78, 37, 0, 18, 0, 0,
      0, 1, 2, 3, 4, 5, 6, 7, 8, 9, 0, 0, 0, 0] : List Nat).drop 14).take 2) =
      [(5 * 8192 + 100) / 256, (5 * 8192 + 100) % 256] ∧
    (5 * 8192 + 100) / 8192 = 5 ∧
    (5 * 8192 + 100) % 4096 = 100 ∧
    (5 * 8192 + 100) / 4096 % 2 = 0 :=
  built_frame_tci "aa:bb:cc:dd:ee:ff" "11:22:33:44:55:66" 100 5
    [192, 168, 100, 1] [192, 168, 100, 2] 10005 20005 10
    [170, 187, 204, 221, 238, 255] [17, 34, 51, 68, 85, 102]
    [170, 187, 204, 221, 238, 255, 17, 34, 51, 68, 85, 102,
      129, 0, 160, 100, 8, 0, 69, 160, 0, 38, 0, 0, 0, 0, 64, 17, 48, 211,
      192, 168, 100, 1, 192, 168, 100, 2, 39, 21, 78, 37, 0, 18, 0, 0,
      0, 1, 2, 3, 4, 5, 6, 7, 8, 9, 0, 0, 0, 0]
    (by decide) (by decide) (by decide) (by decide) (by omega) (by omega)
    (by omega) (by omega) (by omega) (by decide)

/-- C4 witness: the same concrete build returns a 60-byte frame. -/
theorem built_frame_min_length_witness :
    60 ≤ ([170, 187, 204, 221, 238, 255, 17, 34, 51, 68, 85, 102,
      129, 0, 160, 100, 8, 0, 69, 160, 0, 38, 0, 0, 0, 0, 64, 17, 48, 211,
      192, 168, 100, 1, 192, 168, 100, 2, 39, 21, 78, 37, 0, 18, 0, 0,
      0, 1, 2, 3, 4, 5, 6, 7, 8, 9, 0, 0, 0, 0] : List Nat).length :=
  built_frame_min_length "aa:bb:cc:dd:ee:ff" "11:22:33:44:55:66" 100 5
    [192, 168, 100, 1] [192, 168, 100, 2] 10005 20005 10
    [170, 187, 204, 221, 238, 255, 17, 34, 51, 68, 85, 102,
      129, 0, 160, 100, 8, 0, 69, 160, 0, 38, 0, 0, 0, 0, 64, 17, 48, 211,
      192, 168, 100, 1, 192, 168, 100, 2, 39, 21, 78, 37, 0, 18, 0, 0,
      0, 1, 2, 3, 4, 5, 6, 7, 8, 9, 0, 0, 0, 0]
    (by decide)

/-- C7: a BlockingIOError iteration leaves every per-class counter and the
running total unchanged and is not retried: the loop just advances `tc_idx`,
recomputes `next_send_time` from the unchanged total, and proceeds with the
remaining iterations; any other transmit error aborts the run at once. -/
theorem wouldblock_skips_fatal_aborts (tcList : List Nat) (hne : tcList ≠ [])
    (start interval : ℚ) (st : LoopState) (rest : List SendEvent) (msg : String) :
    runLoop tcList start interval st (.wouldBlock :: rest) =
      runLoop tcList start interval
        ⟨st.stats, st.total, st.tcIdx + 1, start + ((st.total : ℚ) + 1) * interval⟩ rest ∧
    runLoop tcList start interval st (.fatal msg :: rest) = .crashed msg := by
  have hlen : ¬ tcList.length = 0 := by
    simpa using hne
  constructor
  · conv_lhs => rw [runLoop]
    rw [dif_neg hlen]
  · rw [runLoop]
    rw [dif_neg hlen]

/-- C7 witness: one concrete state and event list. -/
theorem wouldblock_skips_fatal_aborts_witness :
    runLoop [3] 0 1 ⟨[(3, 5)], 5, 7, 2⟩ [SendEvent.wouldBlock, SendEvent.ok] =
      runLoop [3] 0 1 ⟨[(3, 5)], 5, 8, 0 + ((5 : ℚ) + 1) * 1⟩ [SendEvent.ok] ∧
    runLoop [3] 0 1 ⟨[(3, 5)], 5, 7, 2⟩ [SendEvent.fatal "OSError", SendEvent.ok] =
      .crashed "OSError" :=
  wouldblock_skips_fatal_aborts [3] (by decide) 0 1 ⟨[(3, 5)], 5, 7, 2⟩
    [SendEvent.ok] "OSError"

/-- C8: if acquiring or binding the transmit socket fails, send_traffic
reports the error outcome carrying the message and nothing else — the error
outcome has no counters, no total, no duration — and the loop never runs. -/
theorem sock_fail_error_result (e : String) (dst_mac src_mac : String) (vlan_id : Nat)
    (tc_list : List Nat) (pps : Nat) (events : List SendEvent) (payload_size : Nat) :
    send_traffic (.error e) dst_mac src_mac vlan_id tc_list pps events payload_size =
      .errorResult e := rfl

/-- C10: with pps = 0 and a successfully acquired socket, `interval = 1.0 / pps`
raises ZeroDivisionError after the frames are pre-built: the outcome is an
unhandled crash, neither a success result nor a structured error result. -/
theorem pps_zero_crash (dst_mac src_mac : String) (vlan_id : Nat)
    (tc_list : List Nat) (events : List SendEvent) (payload_size : Nat)
    (fr : List (Nat × List Nat))
    (hbuild : buildFrames dst_mac src_mac vlan_id tc_list payload_size = .ok fr) :
    send_traffic (.ok ()) dst_mac src_mac vlan_id tc_list 0 events payload_size =
      .crash "ZeroDivisionError" := by
  unfold send_traffic
  rw [hbuild]
  rfl

/-- C10 witness: concrete run with traffic class 0. -/
theorem pps_zero_crash_witness :
    send_traffic (.ok ()) "aa:bb:cc:dd:ee:ff" "11:22:33:44:55:66" 100 [0] 0
      [SendEvent.ok] 10 = .crash "ZeroDivisionError" :=
  pps_zero_crash "aa:bb:cc:dd:ee:ff" "11:22:33:44:55:66" 100 [0] [SendEvent.ok] 10
    [(0, [170, 187, 204, 221, 238, 255, 17, 34, 51, 68, 85, 102,
      129, 0, 0, 100, 8, 0, 69, 0, 0, 38, 0, 0, 0, 0, 64, 17, 49, 115,
      192, 168, 100, 1, 192, 168, 100, 2, 39, 16, 78, 32, 0, 18, 0, 0,
      0, 1, 2, 3, 4, 5, 6, 7, 8, 9, 0, 0, 0, 0])] (by decide)

/-- C6 amended: a MAC string whose hex content is unparseable makes the frame
pre-build raise ValueError before any transmission is attempted, and
send_traffic propagates it as an unhandled crash — not as a structured error
result — whatever the loop events would have been. -/
theorem bad_mac_crashes (dst_mac src_mac : String) (vlan_id : Nat)
    (tc_list : List Nat) (hne : tc_list ≠ []) (pps : Nat) (events : List SendEvent)
    (payload_size : Nat)
    (hbad : macBytes dst_mac = .error "ValueError") :
    send_traffic (.ok ()) dst_mac src_mac vlan_id tc_list pps events payload_size =
      .crash "ValueError" := by
  obtain ⟨tc, rest, rfl⟩ : ∃ tc rest, tc_list = tc :: rest := by
    cases tc_list with
    | nil => exact absurd rfl hne
    | cons a l => exact ⟨a, l, rfl⟩
  unfold send_traffic buildFrames
  simp only [List.foldlM, build_udp_frame, hbad, exc_error_bind]

/-- C6 witness: a concrete unparseable MAC. -/
theorem bad_mac_crashes_witness :
    send_traffic (.ok ()) "gg:gg:gg:gg:gg:gg" "11:22:33:44:55:66" 100 [0] 1000
      [SendEvent.ok] 10 = .crash "ValueError" :=
  bad_mac_crashes "gg:gg:gg:gg:gg:gg" "11:22:33:44:55:66" 100 [0] (by decide) 1000
    [SendEvent.ok] 10 (by decide)

/-- C6 counterexample: for the unparseable MAC gg:gg:gg:gg:gg:gg the run ends
in an unhandled crash (uncaught ValueError, no JSON emitted), not in the
structured error result the claim asserts. -/
theorem bad_mac_claim_counterexample :
    send_traffic (.ok ()) "gg:gg:gg:gg:gg:gg" "11:22:33:44:55:66" 100 [0] 1000
      [SendEvent.ok] 10 = .crash "ValueError" := by decide

theorem bump_keys (l : List (Nat × Nat)) (tc : Nat) :
    (bump l tc).map Prod.fst = l.map Prod.fst := by
  induction l with
  | nil => rfl
  | cons p t ih =>
    simp only [bump, List.map_cons] at ih ⊢
    rw [ih]
    congr 1
    split <;> rfl

theorem bump_not_mem (l : List (Nat × Nat)) (tc : Nat) (h : tc ∉ l.map Prod.fst) :
    bump l tc = l := by
  induction l with
  | nil => rfl
  | cons p t ih =>
    simp only [List.map_cons, List.mem_cons, not_or] at h
    simp only [bump, List.map_cons]
    rw [if_neg (fun hh => h.1 hh.symm)]
    have := ih h.2
    simp only [bump] at this
    rw [this]

theorem bump_sum_mem (l : List (Nat × Nat)) (tc : Nat)
    (hnd : (l.map Prod.fst).Nodup) (hmem : tc ∈ l.map Prod.fst) :
    ((bump l tc).map Prod.snd).sum = (l.map Prod.snd).sum + 1 := by
  induction l with
  | nil => simp at hmem
  | cons p t ih =>
    simp only [List.map_cons, List.mem_cons] at hmem
    simp only [List.map_cons, List.nodup_cons] at hnd
    rcases hmem with hh | ht
    · have hrest : bump t tc = t := bump_not_mem t tc (hh ▸ hnd.1)
      simp only [bump, List.map_cons, List.sum_cons]
      rw [if_pos hh.symm]
      simp only [bump] at hrest
      rw [hrest]
      simp only [List.sum_cons]
      omega
    · have hne : ¬ p.1 = tc := fun hh => hnd.1 (hh ▸ ht)
      simp only [bump, List.map_cons, List.sum_cons]
      rw [if_neg hne]
      have := ih hnd.2 ht
      simp only [bump] at this
      rw [this]
      omega

theorem dictInit_go (l : List Nat) : ∀ acc : List (Nat × Nat), l.Nodup →
    (∀ tc ∈ l, acc.any (fun p => p.1 == tc) = false) →
    l.foldl (fun d tc => if d.any (fun p => p.1 == tc) then d else d ++ [(tc, 0)]) acc =
      acc ++ l.map (fun tc => (tc, 0)) := by
  induction l with
  | nil =>
    intro acc _ _
    simp
  | cons a t ih =>
    intro acc hnd hacc
    have hna : acc.any (fun p => p.1 == a) = false := hacc a (by simp)
    have hmem := (List.nodup_cons.mp hnd).1
    simp only [List.foldl_cons, hna, Bool.false_eq_true, if_false]
    rw [ih (acc ++ [(a, 0)]) (List.nodup_cons.mp hnd).2]
    · simp
    · intro tc htc
      have hne : ¬ a = tc := fun hh => hmem (hh ▸ htc)
      simp [List.any_append, hacc tc (by simp [htc]), hne]

theorem dictInit_nodup (l : List Nat) (h : l.Nodup) :
    dictInit l = l.map (fun tc => (tc, 0)) := by
  unfold dictInit
  simpa using dictInit_go l [] h (by simp)

theorem runLoop_inv (tcList : List Nat) (hnd : tcList.Nodup) (start interval : ℚ) :
    ∀ (evs : List SendEvent) (st st' : LoopState),
      st.stats.map Prod.fst = tcList →
      (st.stats.map Prod.snd).sum = st.total →
      runLoop tcList start interval st evs = .done st' →
      st'.stats.map Prod.fst = tcList ∧ (st'.stats.map Prod.snd).sum = st'.total := by
  intro evs
  induction evs with
  | nil =>
    intro st st' h1 h2 hrun
    cases hrun
    exact ⟨h1, h2⟩
  | cons ev rest ih =>
    intro st st' h1 h2 hrun
    simp only [runLoop] at hrun
    by_cases hlen : tcList.length = 0
    · rw [dif_pos hlen] at hrun
      exact nomatch hrun
    · rw [dif_neg hlen] at hrun
      have hpos : 0 < tcList.length := Nat.pos_of_ne_zero hlen
      have htc : tcList.get ⟨st.tcIdx % tcList.length, Nat.mod_lt _ hpos⟩ ∈ tcList :=
        List.get_mem _ _ _
      cases ev with
      | ok =>
        refine ih ⟨bump st.stats (tcList.get ⟨st.tcIdx % tcList.length, Nat.mod_lt _ hpos⟩),
          st.total + 1, st.tcIdx + 1,
          start + (((st.total + 1 : Nat) : ℚ) + 1) * interval⟩ st' ?_ ?_ hrun
        · show (bump st.stats _).map Prod.fst = tcList
          rw [bump_keys, h1]
        · show ((bump st.stats _).map Prod.snd).sum = st.total + 1
          rw [bump_sum_mem st.stats _ (h1 ▸ hnd) (h1 ▸ htc), h2]
      | wouldBlock =>
        exact ih ⟨st.stats, st.total, st.tcIdx + 1,
          start + ((st.total : ℚ) + 1) * interval⟩ st' h1 h2 hrun
      | fatal msg => exact nomatch hrun
      | interrupt =>
        cases hrun
        exact ⟨h1, h2⟩

/-- C9: with a non-empty duplicate-free traffic-class list, every state the
send loop can reach has its per-class counter dict keyed by exactly the
supplied classes (zero counts included) with the counter values summing to
the running total: the state after any prefix of the iterations is the done
state of that prefix run, and interrupted runs return the state reached so
far, so quantifying over all event lists covers every step and the final
reported result. -/
theorem loop_counters_consistent (tcList : List Nat) (hnd : tcList.Nodup)
    (hne : tcList ≠ []) (start interval : ℚ) (evs : List SendEvent) (st' : LoopState)
    (hrun : runLoop tcList start interval (initState tcList start) evs = .done st') :
    st'.stats.map Prod.fst = tcList ∧ (st'.stats.map Prod.snd).sum = st'.total := by
  have hfst : (Prod.fst ∘ fun tc : Nat => (tc, 0)) = id := rfl
  have hsnd : ∀ l : List Nat, ((l.map (fun tc : Nat => (tc, 0))).map Prod.snd).sum = 0 := by
    intro l
    induction l with
    | nil => rfl
    | cons a t iht => simpa using iht
  refine runLoop_inv tcList hnd start interval evs _ st' ?_ ?_ hrun
  · show (dictInit tcList).map Prod.fst = tcList
    rw [dictInit_nodup tcList hnd, List.map_map, hfst, List.map_id]
  · show ((dictInit tcList).map Prod.snd).sum = 0
    rw [dictInit_nodup tcList hnd]
    exact hsnd tcList

/-- C9 witness: classes [0, 2], one success then a drop then an interrupt. -/
theorem loop_counters_consistent_witness :
    ([(0, 1), (2, 0)] : List (Nat × Nat)).map Prod.fst = [0, 2] ∧
    (([(0, 1), (2, 0)] : List (Nat × Nat)).map Prod.snd).sum = 1 :=
  loop_counters_consistent [0, 2] (by decide) (by decide) 0 1
    [SendEvent.ok, SendEvent.wouldBlock, SendEvent.interrupt]
    ⟨[(0, 1), (2, 0)], 1, 2, 2⟩
    (by simp [runLoop, initState, dictInit, bump] <;> norm_num)

theorem runLoop_allok (tcList : List Nat) (hne : tcList ≠ []) (start interval : ℚ) :
    ∀ (n : Nat) (st st' : LoopState),
      runLoop tcList start interval st (List.replicate n .ok) = .done st' →
      st'.total = st.total + n ∧
      st'.nextSendTime = if n = 0 then st.nextSendTime
        else start + ((st.total : ℚ) + n + 1) * interval := by
  have hlen : ¬ tcList.length = 0 := by simpa using hne
  intro n
  induction n with
  | zero =>
    intro st st' hrun
    cases hrun
    simp
  | succ k ih =>
    intro st st' hrun
    rw [List.replicate_succ] at hrun
    simp only [runLoop] at hrun
    rw [dif_neg hlen] at hrun
    have hpos : 0 < tcList.length := Nat.pos_of_ne_zero hlen
    have hk := ih ⟨bump st.stats (tcList.get ⟨st.tcIdx % tcList.length, Nat.mod_lt _ hpos⟩),
      st.total + 1, st.tcIdx + 1,
      start + (((st.total + 1 : Nat) : ℚ) + 1) * interval⟩ st' hrun
    dsimp only at hk
    obtain ⟨hk1, hk2⟩ := hk
    refine ⟨by omega, ?_⟩
    rw [if_neg (Nat.succ_ne_zero k)]
    by_cases hk0 : k = 0
    · subst hk0
      rw [hk2, if_pos rfl]
      push_cast
      ring
    · rw [hk2, if_neg hk0]
      push_cast
      ring

/-- C3 amended: in a run with no transmit failures, packet 0 is scheduled at
the start timestamp, and after k >= 1 successful transmissions the next
scheduled send time is start + (k+1)*interval — one interval later than the
claimed start + k*interval — still computed from the start timestamp and the
updated total rather than relative to the previous actual send time. -/
theorem schedule_next_send (tcList : List Nat) (hne : tcList ≠ [])
    (start interval : ℚ) (n : Nat) (hn : 1 ≤ n) (st' : LoopState)
    (hrun : runLoop tcList start interval (initState tcList start)
      (List.replicate n .ok) = .done st') :
    (initState tcList start).nextSendTime = start ∧
    st'.total = n ∧
    st'.nextSendTime = start + ((n : ℚ) + 1) * interval := by
  have h := runLoop_allok tcList hne start interval n (initState tcList start) st' hrun
  refine ⟨rfl, by simpa [initState] using h.1, ?_⟩
  rw [h.2, if_neg (by omega)]
  simp [initState]

/-- C3 witness: two successful sends with interval 1 starting at 0. -/
theorem schedule_next_send_witness :
    (initState [0] 0).nextSendTime = 0 ∧
    (⟨[(0, 2)], 2, 2, 3⟩ : LoopState).total = 2 ∧
    (⟨[(0, 2)], 2, 2, 3⟩ : LoopState).nextSendTime = 0 + ((2 : ℚ) + 1) * 1 :=
  schedule_next_send [0] (by decide) 0 1 2 (by omega) ⟨[(0, 2)], 2, 2, 3⟩
    (by simp [runLoop, initState, dictInit, bump] <;> norm_num)

/-- C3 counterexample: after k = 1 successful transmission with interval 1 and
start 0 the next scheduled send time the code computes is 2, not the claimed
start + k*interval = 1: line 132 computes start + (total+1)*interval after
total was already incremented. -/
theorem schedule_claim_counterexample :
    runLoop [0] 0 1 (initState [0] 0) [SendEvent.ok] =
      .done ⟨[(0, 1)], 1, 1, 2⟩ ∧
    (2 : ℚ) ≠ 0 + (1 : ℚ) * 1 := by
  constructor
  · simp [runLoop, initState, dictInit, bump] <;> norm_num
  · norm_num
